import Mathlib

/-!
Shallow embedding of the Resort Map View from
`src/frontend/src/app/page.tsx`: the static lift collection, the display
mapping tables, the path-descriptor generator `drawLiftLine`, the
selection state machine, and the three render derivations (path overlay,
markers, lift list).
-/

namespace ResortMap

/-- Lift status: the literal union type `'open' | 'closed' | 'hold'`. -/
inductive Status where
  | «open» : Status
  | closed : Status
  | hold : Status
deriving DecidableEq, Repr

/-- Lift type: the literal union `'express' | 'quad' | 'magic-carpet'`. -/
inductive LiftType where
  | express : LiftType
  | quad : LiftType
  | magicCarpet : LiftType
deriving DecidableEq, Repr

/-- Difficulty: the literal union `'beginner' | 'intermediate' | 'advanced'`. -/
inductive Difficulty where
  | beginner : Difficulty
  | intermediate : Difficulty
  | advanced : Difficulty
deriving DecidableEq, Repr

/-- The `Lift` interface of the source. -/
structure Lift where
  id : String
  name : String
  status : Status
  type : LiftType
  difficulty : Difficulty
  path : List (Int × Int)
  waitTime : Nat
deriving DecidableEq, Repr

/-- Seed record with id "1" from the `lifts` array literal. -/
def lift1 : Lift :=
  { id := "1", name := "Blue Mountain Express", status := Status.«open»,
    type := LiftType.express, difficulty := Difficulty.intermediate,
    path := [(120, 150), (180, 80), (250, 50)], waitTime := 5 }

/-- Seed record with id "2" from the `lifts` array literal. -/
def lift2 : Lift :=
  { id := "2", name := "Summit Quad", status := Status.«open»,
    type := LiftType.quad, difficulty := Difficulty.advanced,
    path := [(250, 200), (300, 150), (350, 100)], waitTime := 12 }

/-- Seed record with id "3" from the `lifts` array literal. -/
def lift3 : Lift :=
  { id := "3", name := "Beginner Magic Carpet", status := Status.hold,
    type := LiftType.magicCarpet, difficulty := Difficulty.beginner,
    path := [(180, 300), (180, 250)], waitTime := 3 }

/-- The statically seeded `lifts` collection. -/
def lifts : List Lift := [lift1, lift2, lift3]

/-- The `statusColors` object literal, as the association list it is
keyed by in the source; a missing key would be an absent entry. -/
def statusColorsTable : List (Status × String) :=
  [(Status.«open», "bg-emerald-500 text-white"),
   (Status.closed, "bg-red-500 text-white"),
   (Status.hold, "bg-amber-500 text-white")]

/-- Property access `statusColors[s]`: `none` models `undefined`. -/
def statusColors (s : Status) : Option String :=
  statusColorsTable.lookup s

/-- The `difficultyColors` object literal as an association list. -/
def difficultyColorsTable : List (Difficulty × String) :=
  [(Difficulty.beginner, "bg-green-100 text-green-800"),
   (Difficulty.intermediate, "bg-blue-100 text-blue-800"),
   (Difficulty.advanced, "bg-black text-white")]

/-- Property access `difficultyColors[d]`. -/
def difficultyColors (d : Difficulty) : Option String :=
  difficultyColorsTable.lookup d

/-- The `typeIcons` object literal as an association list. -/
def typeIconsTable : List (LiftType × String) :=
  [(LiftType.express, "🚡"),
   (LiftType.quad, "🚠"),
   (LiftType.magicCarpet, "✨")]

/-- Property access `typeIcons[t]`. -/
def typeIcons (t : LiftType) : Option String :=
  typeIconsTable.lookup t

/-- The string a `status` literal denotes. -/
def statusText : Status → String
  | Status.«open» => "open"
  | Status.closed => "closed"
  | Status.hold => "hold"

/-- The string a `difficulty` literal denotes. -/
def difficultyText : Difficulty → String
  | Difficulty.beginner => "beginner"
  | Difficulty.intermediate => "intermediate"
  | Difficulty.advanced => "advanced"

/-- JavaScript `String.prototype.toUpperCase()`, character by character;
all the strings it is applied to are ASCII. -/
def toUpperStr (s : String) : String :=
  String.mk (s.data.map Char.toUpper)

/-- `point.join(' ')` for a 2-element point array `[x, y]`. -/
def pointStr (p : Int × Int) : String :=
  toString p.1 ++ " " ++ toString p.2

/-- JavaScript `Array.prototype.join(sep)`: empty array gives `""`, a
singleton gives its element, otherwise elements interleaved with `sep`. -/
def joinSep (sep : String) : List String → String
  | [] => ""
  | [a] => a
  | a :: b :: rest => a ++ sep ++ joinSep sep (b :: rest)

/-- The `drawLiftLine` arrow function of the source:
a template literal prepending `"M "` to
`points.map(point => point.join(' ')).join(' L ')`. -/
def drawLiftLine (points : List (Int × Int)) : String :=
  "M " ++ joinSep " L " (points.map pointStr)

/-- The attributes of one `<path>` element of the SVG overlay layer. -/
structure PathElem where
  d : String
  stroke : String
  strokeWidth : Nat
  strokeDasharray : String
deriving DecidableEq, Repr

/-- The `<path>` rendered for one lift, as a function of the current
`selectedLift` state: `stroke` and `strokeWidth` branch on
`selectedLift === lift.id`, `strokeDasharray` on `lift.status === 'closed'`. -/
def renderPathElem (selectedLift : Option String) (lift : Lift) : PathElem :=
  { d := drawLiftLine lift.path,
    stroke := if selectedLift = some lift.id then "#0f172a" else "#64748b",
    strokeWidth := if selectedLift = some lift.id then 4 else 2,
    strokeDasharray := if lift.status = Status.closed then "5,5" else "none" }

/-- The SVG line layer: `lifts.map(...)` over the seeded collection. -/
def renderPaths (selectedLift : Option String) : List PathElem :=
  lifts.map (renderPathElem selectedLift)

/-- The attributes of one marker `<div>`: scale/z branch on selection,
`left`/`top` come from `lift.path[0]`, fill color from `statusColors`,
glyph from `typeIcons`. `anchor = none` models the `undefined` access
`lift.path[0]` on an empty path. -/
structure Marker where
  scaled : Bool
  anchor : Option (Int × Int)
  color : Option String
  icon : Option String
deriving DecidableEq, Repr

/-- The marker rendered for one lift. -/
def renderMarker (selectedLift : Option String) (lift : Lift) : Marker :=
  { scaled := selectedLift = some lift.id,
    anchor := lift.path.head?,
    color := statusColors lift.status,
    icon := typeIcons lift.type }

/-- The marker layer: `lifts.map(...)` over the seeded collection. -/
def renderMarkers (selectedLift : Option String) : List Marker :=
  lifts.map (renderMarker selectedLift)

/-- The hover-revealed `HoverCardContent` panel for one lift: name
heading, status badge (uppercased text, `statusColors` class), difficulty
badge (uppercased text, `difficultyColors` class), and the wait-time
paragraph `Wait time: {lift.waitTime} minutes`. -/
structure HoverPanel where
  name : String
  statusBadgeClass : Option String
  statusBadgeText : String
  difficultyBadgeClass : Option String
  difficultyBadgeText : String
  waitText : String
deriving DecidableEq, Repr

/-- The hover panel derived from one lift; it reads no selection state. -/
def renderHoverPanel (lift : Lift) : HoverPanel :=
  { name := lift.name,
    statusBadgeClass := statusColors lift.status,
    statusBadgeText := toUpperStr (statusText lift.status),
    difficultyBadgeClass := difficultyColors lift.difficulty,
    difficultyBadgeText := toUpperStr (difficultyText lift.difficulty),
    waitText := "Wait time: " ++ toString lift.waitTime ++ " minutes" }

/-- One `Button` entry of the lift list: variant and ring branch on
`selectedLift === lift.id`; icon, name, wait label and the two badges are
derived from the lift record. -/
structure ListEntry where
  variant : String
  ring : Bool
  icon : Option String
  name : String
  waitLabel : String
  difficultyBadgeClass : Option String
  difficultyBadgeText : String
  statusBadgeClass : Option String
  statusBadgeText : String
deriving DecidableEq, Repr

/-- The list entry rendered for one lift. -/
def renderListEntry (selectedLift : Option String) (lift : Lift) : ListEntry :=
  { variant := if selectedLift = some lift.id then "default" else "outline",
    ring := selectedLift = some lift.id,
    icon := typeIcons lift.type,
    name := lift.name,
    waitLabel := toString lift.waitTime ++ " min wait",
    difficultyBadgeClass := difficultyColors lift.difficulty,
    difficultyBadgeText := difficultyText lift.difficulty,
    statusBadgeClass := statusColors lift.status,
    statusBadgeText := statusText lift.status }

/-- The lift list: `lifts.map(...)` over the seeded collection. -/
def renderListEntries (selectedLift : Option String) : List ListEntry :=
  lifts.map (renderListEntry selectedLift)

/-- Everything derived from the selection state in one record: the path
overlay, the marker layer and the lift list. -/
def renderAll (selectedLift : Option String) :
    List PathElem × List Marker × List ListEntry :=
  (renderPaths selectedLift, renderMarkers selectedLift,
   renderListEntries selectedLift)

/-- The user events the view handles: a click on the list `Button` of a
lift, and a pointer hover over a lift's marker (`HoverCardTrigger`). -/
inductive Event where
  | click : Lift → Event
  | hoverMarker : Lift → Event
deriving DecidableEq, Repr

/-- The lift a given event targets. -/
def eventLift : Event → Lift
  | Event.click l => l
  | Event.hoverMarker l => l

/-- The state transition on `selectedLift`: the `Button` `onClick` handler
runs `setSelectedLift(lift.id)`; hovering a marker runs no state write. -/
def step (selectedLift : Option String) : Event → Option String
  | Event.click l => some l.id
  | Event.hoverMarker _ => selectedLift

/-- The selection state reached from the initial `useState(null)` after a
sequence of events. -/
def reach (evts : List Event) : Option String :=
  evts.foldl step none

/-- The lifts currently in the selected visual state. -/
def selectedLifts (selectedLift : Option String) : List Lift :=
  lifts.filter (fun l => selectedLift = some l.id)

/-- Modelled from the spec: the expected suffix of line-to commands, one
command per subsequent point, in original order. -/
def lineToCmds : List (Int × Int) → String
  | [] => ""
  | q :: qs => " L " ++ pointStr q ++ lineToCmds qs

lemma joinSep_map_eq (p : Int × Int) (ps : List (Int × Int)) :
    joinSep " L " ((p :: ps).map pointStr) = pointStr p ++ lineToCmds ps := by
  induction ps generalizing p with
  | nil => simp [joinSep, lineToCmds]
  | cons q qs ih =>
      have h := ih q
      simp only [List.map_cons] at h ⊢
      simp only [joinSep, lineToCmds]
      rw [h]
      simp [lineToCmds, String.append_assoc]

lemma one_le_length_pointStr (p : Int × Int) : 1 ≤ (pointStr p).length := by
  have h : (" ").length = 1 := rfl
  simp [pointStr, String.length_append, h]
  omega

lemma drawLiftLine_cons (p : Int × Int) (ps : List (Int × Int)) :
    drawLiftLine (p :: ps) = "M " ++ pointStr p ++ lineToCmds ps := by
  rw [drawLiftLine, joinSep_map_eq, String.append_assoc]

/-- A selection value is `none` or the id of a seeded lift. -/
def selInv (s : Option String) : Prop :=
  s = none ∨ ∃ l, l ∈ lifts ∧ s = some l.id

lemma reach_aux (evts : List Event) : ∀ s0 : Option String,
    (∀ e ∈ evts, eventLift e ∈ lifts) → selInv s0 →
    selInv (evts.foldl step s0) := by
  induction evts with
  | nil => intro s0 _ h; exact h
  | cons e t ih =>
      intro s0 hall h
      simp only [List.foldl_cons]
      apply ih
      · intro e' he'
        exact hall e' (List.mem_cons_of_mem _ he')
      · cases e with
        | click l => exact Or.inr ⟨l, hall _ (List.mem_cons_self _ _), rfl⟩
        | hoverMarker l => exact h

/-- Claim C1: for every lift with a non-empty path, the generated path
descriptor is a move-to command at `path[0]` followed by one line-to
command per subsequent point, in the original order, each visited exactly
once, with no reordering and no simplification. -/
theorem C1_path_descriptor (s : Option String) (l : Lift)
    (p : Int × Int) (ps : List (Int × Int)) (h : l.path = p :: ps) :
    (renderPathElem s l).d = "M " ++ pointStr p ++ lineToCmds ps := by
  simp only [renderPathElem, h, drawLiftLine_cons]

/-- Witness for C1 at the first seeded lift. -/
theorem C1_path_descriptor_witness :
    (renderPathElem none lift1).d =
      "M " ++ pointStr (120, 150) ++ lineToCmds [(180, 80), (250, 50)] :=
  C1_path_descriptor none lift1 (120, 150) [(180, 80), (250, 50)] rfl

/-- Claim C2: selecting a lift id present in the collection leaves exactly
that lift in the selected visual state (emphasized stroke, enlarged
marker, highlighted list entry); a subsequent selection of another id
replaces it as the sole selected lift. -/
theorem C2_single_selection (s0 : Option String) (X : Lift) (hX : X ∈ lifts) :
    selectedLifts (step s0 (Event.click X)) = [X]
    ∧ (∀ l ∈ lifts,
        (((renderPathElem (step s0 (Event.click X)) l).stroke = "#0f172a") ↔ l = X)
        ∧ (((renderMarker (step s0 (Event.click X)) l).scaled = true) ↔ l = X)
        ∧ (((renderListEntry (step s0 (Event.click X)) l).ring = true) ↔ l = X))
    ∧ (∀ Y ∈ lifts,
        selectedLifts (step (step s0 (Event.click X)) (Event.click Y)) = [Y]) := by
  simp only [step]
  fin_cases hX <;> decide

/-- Witness for C2 at the first seeded lift. -/
theorem C2_single_selection_witness :
    selectedLifts (step none (Event.click lift1)) = [lift1] :=
  (C2_single_selection none lift1 (by decide)).1

/-- Claim C3: the rendered stroke is dashed exactly when the lift's status
is closed, and solid for every other status, independent of selection. -/
theorem C3_dashed_iff_closed (l : Lift) (s : Option String) :
    ((renderPathElem s l).strokeDasharray = "5,5" ↔ l.status = Status.closed)
    ∧ (l.status ≠ Status.closed →
        (renderPathElem s l).strokeDasharray = "none") := by
  cases hs : l.status <;> simp [renderPathElem, hs]

/-- Witness for C3 at the first seeded lift, whose status is open. -/
theorem C3_dashed_iff_closed_witness :
    (renderPathElem none lift1).strokeDasharray = "none" :=
  (C3_dashed_iff_closed lift1 none).2 (by decide)

/-- Claim C4: selecting the already-selected id leaves the selection state
and the entire rendered output unchanged and never toggles to none. -/
theorem C4_select_idempotent (l : Lift) (s0 : Option String)
    (h : s0 = some l.id) :
    step s0 (Event.click l) = s0
    ∧ renderAll (step s0 (Event.click l)) = renderAll s0
    ∧ step s0 (Event.click l) ≠ none := by
  subst h
  exact ⟨rfl, rfl, by simp [step]⟩

/-- Witness for C4 at the first seeded lift already selected. -/
theorem C4_select_idempotent_witness :
    step (some "1") (Event.click lift1) = some "1" :=
  (C4_select_idempotent lift1 (some "1") rfl).1

/-- Claim C5: hovering a marker never mutates the selection state, for
every lift and every selection state. -/
theorem C5_hover_pure (s : Option String) (l : Lift) :
    step s (Event.hoverMarker l) = s := rfl

/-- Claim C6: the marker layer renders exactly one marker per lift; each
marker is anchored at the lift's `path[0]`, filled by the fixed status
mapping (open, closed, hold to the emerald-green, red and amber classes)
and carries the glyph of the fixed type mapping. -/
theorem C6_markers (s : Option String) (l : Lift) (hl : l ∈ lifts) :
    renderMarkers s = lifts.map (renderMarker s)
    ∧ renderMarker s l ∈ renderMarkers s
    ∧ (∃ p ps, l.path = p :: ps ∧ (renderMarker s l).anchor = some p)
    ∧ (renderMarker s l).color = statusColors l.status
    ∧ (renderMarker s l).icon = typeIcons l.type
    ∧ statusColors Status.«open» = some "bg-emerald-500 text-white"
    ∧ statusColors Status.closed = some "bg-red-500 text-white"
    ∧ statusColors Status.hold = some "bg-amber-500 text-white"
    ∧ typeIcons LiftType.express = some "🚡"
    ∧ typeIcons LiftType.quad = some "🚠"
    ∧ typeIcons LiftType.magicCarpet = some "✨" := by
  fin_cases hl <;>
    exact ⟨rfl, List.mem_map_of_mem _ (by decide), ⟨_, _, rfl, rfl⟩, rfl,
      rfl, rfl, rfl, rfl, rfl, rfl, rfl⟩

/-- Witness for C6 at the first seeded lift. -/
theorem C6_markers_witness :
    (renderMarker none lift1).color = statusColors lift1.status :=
  (C6_markers none lift1 (by decide)).2.2.2.1

/-- Claim C7: the hover panel shows the lift's name, an uppercased status
badge, an uppercased difficulty badge and the wait time formatted with the
word minutes; a lift with status hold and waitTime 3 yields a panel whose
wait text ends in the text 3 minutes and whose status badge reads HOLD. -/
theorem C7_hover_panel (l : Lift) :
    (renderHoverPanel l).name = l.name
    ∧ (renderHoverPanel l).statusBadgeText = toUpperStr (statusText l.status)
    ∧ (renderHoverPanel l).difficultyBadgeText =
        toUpperStr (difficultyText l.difficulty)
    ∧ (renderHoverPanel l).waitText =
        "Wait time: " ++ toString l.waitTime ++ " minutes"
    ∧ (l.status = Status.hold → l.waitTime = 3 →
        (renderHoverPanel l).waitText = "Wait time: " ++ "3 minutes"
        ∧ (renderHoverPanel l).statusBadgeText = "HOLD") := by
  refine ⟨rfl, rfl, rfl, rfl, ?_⟩
  intro h1 h2
  constructor
  · simp only [renderHoverPanel, h2]
    decide
  · simp only [renderHoverPanel, h1]
    decide

/-- Witness for C7 at the third seeded lift, on hold with a 3 minute
wait. -/
theorem C7_hover_panel_witness :
    (renderHoverPanel lift3).waitText = "Wait time: " ++ "3 minutes"
    ∧ (renderHoverPanel lift3).statusBadgeText = "HOLD" :=
  (C7_hover_panel lift3).2.2.2.2 rfl rfl

/-- Claim C8: the selection starts at none, every reachable selection is
none or the id of a seeded lift, and no event ever clears a non-none
selection back to none. -/
theorem C8_selection_domain :
    reach [] = none
    ∧ (∀ evts : List Event, (∀ e ∈ evts, eventLift e ∈ lifts) →
        reach evts = none ∨ ∃ l, l ∈ lifts ∧ reach evts = some l.id)
    ∧ (∀ (s : Option String) (e : Event), s ≠ none → step s e ≠ none) := by
  refine ⟨rfl, ?_, ?_⟩
  · intro evts h
    exact reach_aux evts none h (Or.inl rfl)
  · intro s e hs
    cases e with
    | click l => simp [step]
    | hoverMarker l => simpa [step] using hs

/-- Witness for C8 on a concrete event sequence. -/
theorem C8_selection_domain_witness :
    reach [Event.click lift1, Event.hoverMarker lift2] = none
    ∨ ∃ l, l ∈ lifts ∧
        reach [Event.click lift1, Event.hoverMarker lift2] = some l.id :=
  C8_selection_domain.2.1 [Event.click lift1, Event.hoverMarker lift2]
    (by decide)

/-- Claim C9: the seeded collection satisfies the data-model invariant:
ids are unique, every path is non-empty, and every status, type and
difficulty used by a seeded lift has an entry in the display-mapping
tables. -/
theorem C9_seed_invariant (l : Lift) (hl : l ∈ lifts) :
    (lifts.map Lift.id).Nodup
    ∧ l.path ≠ []
    ∧ (statusColors l.status).isSome = true
    ∧ (difficultyColors l.difficulty).isSome = true
    ∧ (typeIcons l.type).isSome = true := by
  fin_cases hl <;> exact ⟨by decide, by decide, rfl, rfl, rfl⟩

/-- Witness for C9 at the first seeded lift. -/
theorem C9_seed_invariant_witness :
    (statusColors lift1.status).isSome = true :=
  (C9_seed_invariant lift1 (by decide)).2.2.1

/-- Claim C10: `drawLiftLine` is total but unguarded: on the empty list it
returns exactly the two-character string of a bare move command, which
names no coordinate digit, and every non-empty path yields a strictly
longer descriptor. -/
theorem C10_empty_path_degenerate :
    drawLiftLine [] = "M "
    ∧ (drawLiftLine []).data.all (fun c => !c.isDigit) = true
    ∧ ∀ (p : Int × Int) (ps : List (Int × Int)),
        (drawLiftLine []).length < (drawLiftLine (p :: ps)).length := by
  refine ⟨rfl, by decide, ?_⟩
  intro p ps
  have h0 : (drawLiftLine []).length = 2 := rfl
  have h2 : ("M ").length = 2 := rfl
  have h1 := one_le_length_pointStr p
  rw [h0, drawLiftLine_cons]
  simp [String.length_append, h2]
  omega

end ResortMap
